import Mathlib

/-!
Shallow embedding of the bill/customer/catalog service (files src/models/Shop.js,
src/models/Bill.js, src/models/Billing.js, src/models/Customers.js, src/server.js,
src/unnamed/part_001). Money amounts are embedded as integers, timestamps as
naturals, and the document store as in-memory lists with an explicit counter for
store-assigned bill identities.
-/

deriving instance DecidableEq for Except

namespace ShopServer

/-- Payment status stored on a bill. The source stores the strings "Pending",
"Partially Paid" and "Paid" (src/models/Bill.js lines 41-45). -/
inductive PaymentStatus
  | Pending
  | PartiallyPaid
  | Paid
deriving DecidableEq, Repr

/-- Line item of a bill: itemId together with quantity (src/models/Bill.js lines 9-22). -/
structure BillItem where
  itemId : String
  quantity : Int
deriving DecidableEq, Repr

/-- Stored bill record (src/models/Bill.js). billId stands for the store-assigned
identity and date for the creation timestamp. -/
structure Bill where
  billId : Nat
  customerId : String
  items : List BillItem
  total : Int
  paidAmount : Int
  balance : Int
  paymentStatus : PaymentStatus
  date : Nat
deriving DecidableEq, Repr

/-- Stored catalog item, the Billing entity (src/models/Billing.js lines 4-29). -/
structure CatalogItem where
  itemId : String
  name : String
  price : Int
  createdAt : Nat
  updatedAt : Nat
deriving DecidableEq, Repr

/-- Stored customer record: exactly the paths declared by the customer schema
(src/models/Customers.js lines 3-61). The schema declares no favorite path. -/
structure Customer where
  customerId : String
  name : String
  phonenumber : String
  address : String
  town : Option String
  district : String
  state : String
  maritalStatus : String
  createdAt : Nat
  updatedAt : Nat
deriving DecidableEq, Repr

/-- Store state: the collections the routes touch, the next store-assigned bill
identity, and the clock read by Date.now(). -/
structure ShopState where
  customers : List Customer
  catalog : List CatalogItem
  bills : List Bill
  nextBillId : Nat
  now : Nat
deriving DecidableEq, Repr

/-- Error responses sent through sendError (src/models/Shop.js lines 87-89).
invalidReference carries the unmatched item id list that the handler renders as
the message "Invalid item IDs: " followed by the comma-joined ids
(src/models/Shop.js line 383). conflictErr is the 409 duplicate-key response. -/
inductive ApiError
  | validationErr (msg : String)
  | invalidReference (ids : List String)
  | notFound (msg : String)
  | conflictErr (msg : String)
  | internalErr (msg : String)
deriving DecidableEq, Repr

/-- Decides the Joi customer id pattern, CUST- then three uppercase letters, a
dd/mm/yyyy date and four digits (src/models/Shop.js lines 127-129 and 423-425). -/
def customerIdFormat (s : String) : Bool :=
  match s.toList with
  | 'C' :: 'U' :: 'S' :: 'T' :: '-' :: a :: b :: c :: '-' ::
    d1 :: d2 :: '/' :: m1 :: m2 :: '/' :: y1 :: y2 :: y3 :: y4 :: '-' ::
    n1 :: n2 :: n3 :: n4 :: [] =>
      [a, b, c].all Char.isUpper &&
      [d1, d2, m1, m2, y1, y2, y3, y4, n1, n2, n3, n4].all Char.isDigit
  | _ => false

/-- Decides the Joi item id pattern, ITEM- then seven characters drawn from
uppercase letters and digits (src/models/Shop.js lines 115-120 and 133-135). -/
def itemIdFormat (s : String) : Bool :=
  match s.toList with
  | 'I' :: 'T' :: 'E' :: 'M' :: '-' :: a1 :: a2 :: a3 :: a4 :: a5 :: a6 :: a7 :: [] =>
      [a1, a2, a3, a4, a5, a6, a7].all (fun ch => ch.isUpper || ch.isDigit)
  | _ => false

/-- Customer.findOne on customerId equality. -/
def findCustomer (s : ShopState) (cid : String) : Option Customer :=
  s.customers.find? (fun c => c.customerId == cid)

/-- Billing.findOne, and the itemMap lookup of the bill read, on itemId equality. -/
def lookupCatalog (catalog : List CatalogItem) (id : String) : Option CatalogItem :=
  catalog.find? (fun it => it.itemId == id)

/-- Bill.findById. -/
def findBill (s : ShopState) (bid : Nat) : Option Bill :=
  s.bills.find? (fun b => b.billId == bid)

/-- Payment status derivation written out identically in both bill write handlers
(src/models/Shop.js lines 388-393 and 494-495): Paid when paidAmount is at least
total, else Partially Paid when paidAmount is positive, else Pending. -/
def computeStatus (total paidAmount : Int) : PaymentStatus :=
  if paidAmount ≥ total then .Paid
  else if paidAmount > 0 then .PartiallyPaid
  else .Pending

/-- Body of POST /bill/saveBill after Joi parsing; the Joi default 0 for a missing
paidAmount is applied before the handler destructures the body. -/
structure SaveBillRequest where
  customerId : String
  items : List BillItem
  total : Int
  paidAmount : Int
deriving DecidableEq, Repr

/-- Joi billSchema for POST /bill/saveBill (src/models/Shop.js lines 126-147):
customerId pattern, at least one item, each with the item id pattern and
quantity at least 1, total at least 0 and paidAmount at least 0. -/
def billRequestValid (r : SaveBillRequest) : Bool :=
  customerIdFormat r.customerId &&
  !r.items.isEmpty &&
  r.items.all (fun it => itemIdFormat it.itemId && decide (1 ≤ it.quantity)) &&
  decide (0 ≤ r.total) && decide (0 ≤ r.paidAmount)

/-- POST /bill/saveBill handler, current revision (src/models/Shop.js lines
366-415): Joi validation, customer existence, catalog existence of every itemId
with every unmatched id collected, then the balance and status derivation and a
single store write appending the new bill. Returns the new bill identity. -/
def saveBill (s : ShopState) (r : SaveBillRequest) :
    Except ApiError (ShopState × Nat) :=
  if !billRequestValid r then
    .error (.validationErr "Bill validation failed")
  else
    match findCustomer s r.customerId with
    | none => .error (.notFound "Customer not found")
    | some _ =>
      let itemIds := r.items.map (fun it => it.itemId)
      let invalidItems := itemIds.filter (fun id => (lookupCatalog s.catalog id).isNone)
      if !invalidItems.isEmpty then
        .error (.invalidReference invalidItems)
      else
        let balance := r.total - r.paidAmount
        let newBill : Bill :=
          { billId := s.nextBillId
            customerId := r.customerId
            items := r.items
            total := r.total
            paidAmount := r.paidAmount
            balance := balance
            paymentStatus := computeStatus r.total r.paidAmount
            date := s.now }
        .ok ({ s with bills := s.bills ++ [newBill], nextBillId := s.nextBillId + 1 },
             s.nextBillId)

/-- Store contents after a saveBill request: the handler performs its only write
after every check has passed, so an error leaves the store untouched. -/
def stepSaveBill (s : ShopState) (r : SaveBillRequest) : ShopState :=
  match saveBill s r with
  | .ok (s1, _) => s1
  | .error _ => s

/-- Document validation run by a mongoose save of a bill, the numeric validators
of src/models/Bill.js: total at least 0 (lines 23-27), paidAmount at least 0
(lines 28-32), every quantity at least 1 (lines 16-20). The balance field has no
validator and the status enum is total by construction. -/
def billDocValid (b : Bill) : Bool :=
  decide (0 ≤ b.total) && decide (0 ≤ b.paidAmount) &&
  b.items.all (fun it => decide (1 ≤ it.quantity))

/-- PUT /bill/updatePayment/:billId handler (src/models/Shop.js lines 475-511):
the Joi paymentSchema accepts any number for paidAmount (no sign constraint), the
bill is looked up by identity, paidAmount is overwritten, balance and
paymentStatus are recomputed, and the bill is saved back. The save runs the bill
schema validators — paidAmount has min 0 (src/models/Bill.js lines 28-32) — and a
validation failure throws; this route's catch turns any thrown error into the 500
Internal Server Error response (src/models/Shop.js lines 504-510), with nothing
persisted. On success the updated bill is echoed in the response. -/
def recordPayment (s : ShopState) (bid : Nat) (paidAmount : Int) :
    Except ApiError (ShopState × Bill) :=
  match findBill s bid with
  | none => .error (.notFound "Bill not found")
  | some bill =>
    let updated : Bill :=
      { bill with
        paidAmount := paidAmount
        balance := bill.total - paidAmount
        paymentStatus := computeStatus bill.total paidAmount }
    if !billDocValid updated then
      .error (.internalErr "Internal Server Error")
    else
      .ok ({ s with
              bills := s.bills.map (fun b => if b.billId == bid then updated else b) },
           updated)

/-- Store contents after an updatePayment request: the handler's only write is
the bill save, which throws before persisting when validation fails. -/
def stepRecordPayment (s : ShopState) (bid : Nat) (p : Int) : ShopState :=
  match recordPayment s bid p with
  | .ok (s1, _) => s1
  | .error _ => s

/-- Catalog snapshot placed under the itemId key of an enriched line item
(src/models/Shop.js line 454). -/
structure ItemSnapshot where
  itemId : String
  name : String
  price : Int
deriving DecidableEq, Repr

/-- Enriched line item of a bill read: the original quantity with the itemId field
replaced by the catalog snapshot (src/models/Shop.js lines 450-456). -/
structure EnrichedItem where
  itemId : ItemSnapshot
  quantity : Int
deriving DecidableEq, Repr

/-- Enriched bill of the read response: the stored bill fields with the items list
replaced by its enriched form (src/models/Shop.js lines 449-461). -/
structure EnrichedBill where
  billId : Nat
  customerId : String
  items : List EnrichedItem
  total : Int
  paidAmount : Int
  balance : Int
  paymentStatus : PaymentStatus
  date : Nat
deriving DecidableEq, Repr

/-- Body of the 200 responses of GET /bill/getBills/:customerId
(src/models/Shop.js lines 432-437 and 463-467). -/
structure GetBillsResponse where
  success : Bool
  bills : List EnrichedBill
  total : Nat
  message : Option String
deriving DecidableEq, Repr

/-- Line-item enrichment (src/models/Shop.js lines 450-456): each item is mapped to
its snapshot form, with a null itemId when the catalog lookup misses, and the null
entries are then filtered out. -/
def enrichItems (catalog : List CatalogItem) (items : List BillItem) :
    List EnrichedItem :=
  (items.map (fun it =>
      match lookupCatalog catalog it.itemId with
      | some found =>
          some { itemId := { itemId := found.itemId, name := found.name,
                             price := found.price }
                 quantity := it.quantity }
      | none => none)).filterMap (fun x => x)

/-- Enriched view of one bill (src/models/Shop.js lines 449-461). -/
def enrichBill (catalog : List CatalogItem) (b : Bill) : EnrichedBill :=
  { billId := b.billId
    customerId := b.customerId
    items := enrichItems catalog b.items
    total := b.total
    paidAmount := b.paidAmount
    balance := b.balance
    paymentStatus := b.paymentStatus
    date := b.date }

/-- Sort order requested from the store by the bill read: date descending, the sort
of -1 on date at src/models/Shop.js line 441. -/
def dateGe (a b : Bill) : Prop := b.date ≤ a.date

instance : DecidableRel dateGe :=
  fun a b => inferInstanceAs (Decidable (b.date ≤ a.date))

instance : IsTotal Bill dateGe :=
  ⟨fun a b => le_total b.date a.date⟩

instance : IsTrans Bill dateGe :=
  ⟨fun _ _ _ h1 h2 => le_trans h2 h1⟩

/-- Store-side ordering of the per-customer find result by date descending. -/
def sortByDateDesc (l : List Bill) : List Bill :=
  List.insertionSort dateGe l

/-- GET /bill/getBills/:customerId handler (src/models/Shop.js lines 418-472):
customer id format check, then customer lookup — a missing customer yields a
successful empty response with the message Customer not found — then the bills of
the customer sorted by date descending and enriched against the catalog. -/
def getBills (s : ShopState) (cid : String) : Except ApiError GetBillsResponse :=
  if !customerIdFormat cid then
    .error (.validationErr "Invalid customer ID format")
  else
    match findCustomer s cid with
    | none =>
        .ok { success := true
              bills := []
              total := 0
              message := some "Customer not found" }
    | some _ =>
        let bills := sortByDateDesc (s.bills.filter (fun b => b.customerId == cid))
        let enriched := bills.map (enrichBill s.catalog)
        .ok { success := true
              bills := enriched
              total := enriched.length
              message := none }

/-- Fields of the toggleFavorite 200 response (src/models/Shop.js lines 234-239). -/
structure ToggleResponse where
  message : String
  customerId : String
  favorite : Bool
deriving DecidableEq, Repr

/-- Reading customer.favorite on a document loaded from the store: the customer
schema (src/models/Customers.js lines 3-61) declares no favorite path, so the read
yields the JS value undefined, modelled as none. -/
def customerFavoritePath (_c : Customer) : Option Bool := none

/-- JS logical negation applied to a possibly-undefined boolean: not undefined is
true. -/
def jsNot : Option Bool → Bool
  | none => true
  | some b => !b

/-- PUT /customer/toggleFavorite/:customerId handler (src/models/Shop.js lines
223-243). The handler assigns customer.favorite the negation of customer.favorite
and saves; favorite is not a schema path, so the assignment creates only an
in-memory property that the strict-mode save does not persist: the stored record
is unchanged and the response echoes the in-memory value. -/
def toggleFavorite (s : ShopState) (cid : String) :
    Except ApiError (ShopState × ToggleResponse) :=
  match findCustomer s cid with
  | none => .error (.notFound "Customer not found")
  | some c =>
    let newFavorite := jsNot (customerFavoritePath c)
    .ok (s,
      { message :=
          if newFavorite then "Customer added to favorites"
          else "Customer removed from favorites"
        customerId := c.customerId
        favorite := newFavorite })

/-- One toggleFavorite call reduced to its observables: the store state afterwards
and, when the customer was found, the favorite value reported in the response. -/
def runToggle (s : ShopState) (cid : String) : ShopState × Option Bool :=
  match toggleFavorite s cid with
  | .ok (s1, resp) => (s1, some resp.favorite)
  | .error _ => (s, none)

/-- Body of POST /billing/submitItems and PUT /billing/updateItem after Joi
parsing. -/
structure ItemRequest where
  itemId : String
  name : String
  price : Int
deriving DecidableEq, Repr

/-- Joi billingSchema (src/models/Shop.js lines 114-123): item id pattern, name
length between 2 and 100, price at least 0. -/
def itemRequestValid (r : ItemRequest) : Bool :=
  itemIdFormat r.itemId &&
  decide (2 ≤ r.name.length) && decide (r.name.length ≤ 100) &&
  decide (0 ≤ r.price)

/-- POST /billing/submitItems handler (src/models/Shop.js lines 285-309) together
with the pre-save hook of src/models/Billing.js lines 32-35: a document save runs
the hook, which overwrites updatedAt with the current time; createdAt takes its
default, also the current time. -/
def submitItem (s : ShopState) (r : ItemRequest) :
    Except ApiError (ShopState × CatalogItem) :=
  if !itemRequestValid r then
    .error (.validationErr "Item validation failed")
  else if (lookupCatalog s.catalog r.itemId).isSome then
    .error (.conflictErr "Item ID already exists")
  else
    let newItem : CatalogItem :=
      { itemId := r.itemId
        name := r.name
        price := r.price
        createdAt := s.now
        updatedAt := s.now }
    .ok ({ s with catalog := s.catalog ++ [newItem] }, newItem)

/-- PUT /billing/updateItem handler (src/models/Shop.js lines 324-348): Joi
validation, then Billing.findOneAndUpdate patching only name and price. A
findOneAndUpdate is a store-level update, not a document save, so the pre-save
hook of src/models/Billing.js does not run and updatedAt keeps its stored value. -/
def updateItem (s : ShopState) (r : ItemRequest) :
    Except ApiError (ShopState × CatalogItem) :=
  if !itemRequestValid r then
    .error (.validationErr "Item validation failed")
  else
    match lookupCatalog s.catalog r.itemId with
    | none => .error (.notFound "Item not found")
    | some old =>
      let updated : CatalogItem := { old with name := r.name, price := r.price }
      .ok ({ s with catalog :=
              s.catalog.map (fun it => if it.itemId == r.itemId then updated else it) },
           updated)

/-- Phone pattern matcher of the customer schema on the character list: +91, one
digit 6 to 9, then nine digits (src/models/Customers.js line 24). -/
def phoneMatchL : List Char → Bool
  | '+' :: '9' :: '1' :: f :: rest =>
      decide ('6' ≤ f) && decide (f ≤ '9') &&
      rest.length == 9 && rest.all Char.isDigit
  | _ => false

/-- The +91 test of the User pre-save hook on the character list, translating the
JS startsWith call (src/unnamed/part_001 line 39). -/
def hasPlus91L : List Char → Bool
  | '+' :: '9' :: '1' :: _ => true
  | _ => false

/-- Phone validator of the customer schema (src/models/Customers.js line 24). -/
def customerPhoneMatch (p : String) : Bool :=
  phoneMatchL p.toList

/-- Whether a phone string already carries the +91 prefix. -/
def hasPlus91 (p : String) : Bool :=
  hasPlus91L p.toList

/-- Customer id validator of the customer schema (src/models/Customers.js line
10): CUST- followed by twelve alphanumerics. -/
def customerIdMatch (s : String) : Bool :=
  match s.toList with
  | 'C' :: 'U' :: 'S' :: 'T' :: '-' :: rest =>
      rest.length == 12 && rest.all Char.isAlphanum
  | _ => false

/-- Document validation run by a mongoose save of a customer: the match and length
validators of src/models/Customers.js. The customer schema has no pre-save hook,
so no field is rewritten before validation. -/
def customerDocValid (c : Customer) : Bool :=
  customerIdMatch c.customerId &&
  decide (2 ≤ c.name.length) && decide (c.name.length ≤ 100) &&
  customerPhoneMatch c.phonenumber &&
  decide (5 ≤ c.address.length) && decide (c.address.length ≤ 500)

/-- A mongoose save of a new customer document, as issued by the
POST /customer/submitCustomers handler (src/models/Shop.js lines 163-164):
validation either rejects the document with a ValidationError or appends it to
the collection unchanged — the customer schema defines no pre-save
transformation. -/
def customerSave (s : ShopState) (c : Customer) : Except ApiError ShopState :=
  if !customerDocValid c then
    .error (.validationErr "Customer validation failed")
  else
    .ok { s with customers := s.customers ++ [c] }

/-- Pre-save hook of the User schema (src/unnamed/part_001 lines 37-43): prepend
+91 to the phone number when the stored value does not already start with it.
This hook belongs to the User model, not to the customer schema. -/
def userNormalizePhone (p : String) : String :=
  if hasPlus91 p then p else "+91" ++ p

/-- Stored default of the balance field of the bill schema (src/models/Bill.js
lines 33-40): the object literal gives the key default twice, first a function of
total and paidAmount and then the literal 0; in JS the later duplicate key wins,
so the effective stored default is 0. -/
def billSchemaBalanceDefault : Int := 0

/-! Concrete records used by the witness and counterexample theorems, built
around the worked example of the spec: customer CUST-ABC-01/01/2024-0001, catalog
item ITEM-ABCDEFG, a 500-rupee bill partially paid with 200. -/

/-- The customer id of the worked example. -/
def exCid : String := "CUST-ABC-01/01/2024-0001"

/-- Example customer on file. -/
def exCustomer : Customer :=
  { customerId := exCid
    name := "Asha"
    phonenumber := "+919876543210"
    address := "12 Main Street"
    town := none
    district := "Dindigul"
    state := "Tamil Nadu"
    maritalStatus := "Married"
    createdAt := 1
    updatedAt := 1 }

/-- Example catalog item on file. -/
def exItem : CatalogItem :=
  { itemId := "ITEM-ABCDEFG"
    name := "Silk Thread"
    price := 250
    createdAt := 1
    updatedAt := 1 }

/-- Base store: one customer, one catalog item, no bills, clock at 10. -/
def exState : ShopState :=
  { customers := [exCustomer]
    catalog := [exItem]
    bills := []
    nextBillId := 0
    now := 10 }

/-- The worked saveBill request: total 500, paidAmount 200. -/
def exReq : SaveBillRequest :=
  { customerId := exCid
    items := [{ itemId := "ITEM-ABCDEFG", quantity := 2 }]
    total := 500
    paidAmount := 200 }

/-- The bill the worked request stores. -/
def exBill : Bill :=
  { billId := 0
    customerId := exCid
    items := [{ itemId := "ITEM-ABCDEFG", quantity := 2 }]
    total := 500
    paidAmount := 200
    balance := 300
    paymentStatus := .PartiallyPaid
    date := 10 }

/-- Store after the worked saveBill request. -/
def exState1 : ShopState :=
  { exState with bills := [exBill], nextBillId := 1 }

/-- The worked bill after recordPayment with 500. -/
def exBillPaid : Bill :=
  { exBill with paidAmount := 500, balance := 0, paymentStatus := .Paid }

/-- Store after that recordPayment. -/
def exState2 : ShopState :=
  { exState1 with bills := [exBillPaid] }

/-- A saveBill request with total 0 and paidAmount 0. -/
def exReqZero : SaveBillRequest :=
  { customerId := exCid
    items := [{ itemId := "ITEM-ABCDEFG", quantity := 1 }]
    total := 0
    paidAmount := 0 }

/-- The bill the zero request stores: status Paid, since 0 is at least 0. -/
def exBillZero : Bill :=
  { billId := 0
    customerId := exCid
    items := [{ itemId := "ITEM-ABCDEFG", quantity := 1 }]
    total := 0
    paidAmount := 0
    balance := 0
    paymentStatus := .Paid
    date := 10 }

/-- Store after the zero saveBill request. -/
def exStateZero : ShopState :=
  { exState with bills := [exBillZero], nextBillId := 1 }

/-- Older stored bill whose second line item references a catalog id that no item
carries (the catalog item was deleted after bill creation). -/
def exBillOld : Bill :=
  { billId := 5
    customerId := exCid
    items := [{ itemId := "ITEM-ABCDEFG", quantity := 1 },
              { itemId := "ITEM-GONEGON", quantity := 2 }]
    total := 700
    paidAmount := 0
    balance := 700
    paymentStatus := .Pending
    date := 5 }

/-- Newer stored bill, fully paid. -/
def exBillNew : Bill :=
  { billId := 6
    customerId := exCid
    items := [{ itemId := "ITEM-ABCDEFG", quantity := 3 }]
    total := 750
    paidAmount := 750
    balance := 0
    paymentStatus := .Paid
    date := 9 }

/-- Store with the two bills above, stored oldest first. -/
def exStateBills : ShopState :=
  { customers := [exCustomer]
    catalog := [exItem]
    bills := [exBillOld, exBillNew]
    nextBillId := 7
    now := 20 }

/-- Update request for the example catalog item, issued at clock 10. -/
def exItemReq : ItemRequest :=
  { itemId := "ITEM-ABCDEFG", name := "Cotton Thread", price := 300 }

/-- Creation request for a fresh catalog item. -/
def exNewItemReq : ItemRequest :=
  { itemId := "ITEM-NEWITEM", name := "Zari Lace", price := 120 }

/-- A saveBill request naming two item ids absent from the catalog, one present
id between them. -/
def exReqMissing : SaveBillRequest :=
  { customerId := exCid
    items := [{ itemId := "ITEM-ZZZZZZZ", quantity := 1 },
              { itemId := "ITEM-ABCDEFG", quantity := 1 },
              { itemId := "ITEM-QQQQQQQ", quantity := 1 }]
    total := 100
    paidAmount := 0 }

/-- A store holding no customer at all. -/
def exEmptyState : ShopState :=
  { customers := [], catalog := [], bills := [], nextBillId := 0, now := 0 }

/-- A customer document whose phone number lacks the +91 prefix. -/
def exBadCustomer : Customer :=
  { customerId := "CUST-ABCDEFGHIJKL"
    name := "Bala"
    phonenumber := "9876543210"
    address := "14 Main Street"
    town := none
    district := "Dindigul"
    state := "Tamil Nadu"
    maritalStatus := "Married"
    createdAt := 2
    updatedAt := 2 }

/-- The example item after the update request: name and price patched, both
timestamps untouched. -/
def exItemUpdated : CatalogItem :=
  { exItem with name := "Cotton Thread", price := 300 }

/-- Store after the update request. -/
def exStateUpdated : ShopState :=
  { exState with catalog := [exItemUpdated] }

/-- The item stored by the creation request at clock 10. -/
def exNewItem : CatalogItem :=
  { itemId := "ITEM-NEWITEM"
    name := "Zari Lace"
    price := 120
    createdAt := 10
    updatedAt := 10 }

/-- Store after the creation request. -/
def exStateNewItem : ShopState :=
  { exState with catalog := exState.catalog ++ [exNewItem] }

/-- A customer document passing every schema validator. -/
def exOkCustomer : Customer :=
  { customerId := "CUST-ABCDEFGHIJKL"
    name := "Kala"
    phonenumber := "+919812345678"
    address := "15 Main Street"
    town := none
    district := "Dindigul"
    state := "Tamil Nadu"
    maritalStatus := "Married"
    createdAt := 3
    updatedAt := 3 }

/-- The empty store after saving that customer. -/
def exStateSaved : ShopState :=
  { exEmptyState with customers := [exOkCustomer] }

/-- Snapshot of the example catalog item as it appears in enriched line items. -/
def exSnapshot : ItemSnapshot :=
  { itemId := "ITEM-ABCDEFG", name := "Silk Thread", price := 250 }

/-- The bill read response on the two-bill store: newest first, and the line item
referencing the vanished ITEM-GONEGON absent from the older bill. -/
def exRespBills : GetBillsResponse :=
  { success := true
    bills := [{ billId := 6
                customerId := exCid
                items := [{ itemId := exSnapshot, quantity := 3 }]
                total := 750
                paidAmount := 750
                balance := 0
                paymentStatus := .Paid
                date := 9 },
              { billId := 5
                customerId := exCid
                items := [{ itemId := exSnapshot, quantity := 1 }]
                total := 700
                paidAmount := 0
                balance := 700
                paymentStatus := .Pending
                date := 5 }]
    total := 2
    message := none }

/-! Helper lemmas shared by the claim theorems. -/

/-- Characterisation of the status derivation for a nonnegative paidAmount: Paid
exactly when total ≤ paidAmount, Partially Paid exactly when 0 < paidAmount <
total, Pending exactly when paidAmount = 0 and 0 < total. -/
theorem computeStatus_spec (t p : Int) (hp : 0 ≤ p) :
    (computeStatus t p = .Paid ↔ t ≤ p) ∧
    (computeStatus t p = .PartiallyPaid ↔ 0 < p ∧ p < t) ∧
    (computeStatus t p = .Pending ↔ p = 0 ∧ 0 < t) := by
  unfold computeStatus
  split_ifs with h1 h2 <;> refine ⟨?_, ?_, ?_⟩ <;> simp <;> omega

/-- Shape of a successful saveBill run: validation passed, the customer exists,
and the store gained exactly one bill carrying the request fields with balance and
status derived; nothing else changed. -/
theorem saveBill_ok_shape {s : ShopState} {r : SaveBillRequest} {s1 : ShopState}
    {bid : Nat} (h : saveBill s r = .ok (s1, bid)) :
    billRequestValid r = true ∧ (findCustomer s r.customerId).isSome = true ∧
    s1.bills = s.bills ++
      [{ billId := s.nextBillId
         customerId := r.customerId
         items := r.items
         total := r.total
         paidAmount := r.paidAmount
         balance := r.total - r.paidAmount
         paymentStatus := computeStatus r.total r.paidAmount
         date := s.now }] ∧
    s1.customers = s.customers ∧ s1.catalog = s.catalog ∧
    s1.nextBillId = s.nextBillId + 1 ∧ s1.now = s.now ∧ bid = s.nextBillId := by
  unfold saveBill at h
  split at h
  · simp at h
  · rename_i hval
    split at h
    · simp at h
    · rename_i c heq
      dsimp only at h
      split at h
      · simp at h
      · simp only [Except.ok.injEq, Prod.mk.injEq] at h
        obtain ⟨hs, hb⟩ := h
        subst hs
        simp at hval
        refine ⟨hval, ?_, rfl, rfl, rfl, rfl, rfl, hb.symm⟩
        rw [heq]
        rfl

/-- Shape of a successful recordPayment run: some bill was found, the echoed bill
is that bill with paidAmount overwritten and balance and status recomputed, the
saved document passed the schema validators, and the store replaces every bill
carrying that identity by the updated one. -/
theorem recordPayment_ok_shape {s : ShopState} {bid : Nat} {p : Int}
    {s1 : ShopState} {b1 : Bill} (h : recordPayment s bid p = .ok (s1, b1)) :
    ∃ bill, findBill s bid = some bill ∧
      b1 = { bill with
             paidAmount := p
             balance := bill.total - p
             paymentStatus := computeStatus bill.total p } ∧
      billDocValid b1 = true ∧
      s1 = { s with
             bills := s.bills.map (fun b => if b.billId == bid then b1 else b) } := by
  unfold recordPayment at h
  split at h
  · simp at h
  · rename_i bill heq
    dsimp only at h
    split at h
    · simp at h
    · rename_i hv
      simp at hv
      simp only [Except.ok.injEq, Prod.mk.injEq] at h
      obtain ⟨hs, hb⟩ := h
      refine ⟨bill, heq, hb.symm, ?_, by rw [← hs, hb]⟩
      rw [← hb]
      exact hv

/-- Replacing every entry that satisfies the search predicate by a replacement
that itself satisfies it makes the replacement the first find, provided a find
succeeded before. -/
theorem find?_map_update {α : Type} (p : α → Bool) (u : α) :
    ∀ (l : List α) (a : α), l.find? p = some a → p u = true →
      (l.map (fun x => if p x then u else x)).find? p = some u := by
  intro l
  induction l with
  | nil => intro a ha _; simp at ha
  | cons hd tl ih =>
    intro a ha hu
    rw [List.map_cons]
    by_cases hp : p hd = true
    · rw [if_pos hp]
      exact List.find?_cons_of_pos _ hu
    · rw [if_neg hp]
      rw [List.find?_cons_of_neg _ hp] at ha
      rw [List.find?_cons_of_neg _ hp]
      exact ih a ha hu

/-! Claim C1. -/

/-- Status characterisation asserted by claim C1, following its words: Paid iff
paidAmount is at least total, Pending iff paidAmount equals 0, Partially Paid in
the remaining cases. -/
abbrev claimedStatusRule (total paid : Int) (st : PaymentStatus) : Prop :=
  (st = .Paid ↔ total ≤ paid) ∧
  (st = .Pending ↔ paid = 0) ∧
  (st = .PartiallyPaid ↔ ¬ total ≤ paid ∧ paid ≠ 0)

/-- C1 counterexample: the saveBill write with total 0 and paidAmount 0 is
accepted and stores paymentStatus Paid, so the claimed rule fails at that stored
bill: the conjunct Pending iff paidAmount equals 0 demands Pending there. -/
theorem c1_counterexample :
    saveBill exState exReqZero = .ok (exStateZero, 0) ∧
    findBill exStateZero 0 = some exBillZero ∧
    exBillZero.total = 0 ∧ exBillZero.paidAmount = 0 ∧
    exBillZero.paymentStatus = .Paid ∧
    ¬ claimedStatusRule exBillZero.total exBillZero.paidAmount
        exBillZero.paymentStatus := by
  refine ⟨by decide, by decide, rfl, rfl, rfl, ?_⟩
  intro hrule
  exact absurd (hrule.2.1.mpr rfl) (by decide)

/-- C1 (amended): for every accepted bill write with total and paidAmount both
nonnegative, the stored balance equals total minus paidAmount, and the stored
status is Paid iff paidAmount is at least total, Partially Paid iff paidAmount
lies strictly between 0 and total, and Pending iff paidAmount equals 0 while
total is positive (at total 0 and paidAmount 0 the stored status is Paid, not
Pending). -/
theorem c1_amended :
    (∀ s r s1 bid, 0 ≤ r.total → 0 ≤ r.paidAmount →
      saveBill s r = .ok (s1, bid) →
      ∃ b : Bill, s1.bills = s.bills ++ [b] ∧
        b.total = r.total ∧ b.paidAmount = r.paidAmount ∧
        b.balance = r.total - r.paidAmount ∧
        (b.paymentStatus = .Paid ↔ r.total ≤ r.paidAmount) ∧
        (b.paymentStatus = .PartiallyPaid ↔
          0 < r.paidAmount ∧ r.paidAmount < r.total) ∧
        (b.paymentStatus = .Pending ↔ r.paidAmount = 0 ∧ 0 < r.total)) ∧
    (∀ s bid p s1 b1, 0 ≤ p →
      recordPayment s bid p = .ok (s1, b1) → 0 ≤ b1.total →
      b1.paidAmount = p ∧ b1.balance = b1.total - p ∧
      (b1.paymentStatus = .Paid ↔ b1.total ≤ p) ∧
      (b1.paymentStatus = .PartiallyPaid ↔ 0 < p ∧ p < b1.total) ∧
      (b1.paymentStatus = .Pending ↔ p = 0 ∧ 0 < b1.total)) := by
  constructor
  · intro s r s1 bid _ht hp h
    obtain ⟨-, -, hbills, -, -, -, -, -⟩ := saveBill_ok_shape h
    obtain ⟨h1, h2, h3⟩ := computeStatus_spec r.total r.paidAmount hp
    exact ⟨_, hbills, rfl, rfl, rfl, h1, h2, h3⟩
  · intro s bid p s1 b1 hp h _ht
    obtain ⟨bill, -, hb1, -, -⟩ := recordPayment_ok_shape h
    have htot : b1.total = bill.total := by rw [hb1]
    obtain ⟨h1, h2, h3⟩ := computeStatus_spec bill.total p hp
    subst hb1
    exact ⟨rfl, rfl, h1, h2, h3⟩

/-- C1 witness: the amended theorem applied to the worked example, a 500-rupee
bill created with 200 paid and then repaid in full with 500. -/
theorem c1_amended_witness :
    (∃ b : Bill, exState1.bills = exState.bills ++ [b] ∧
      b.total = 500 ∧ b.paidAmount = 200 ∧
      b.balance = 500 - 200 ∧
      (b.paymentStatus = .Paid ↔ (500 : Int) ≤ 200) ∧
      (b.paymentStatus = .PartiallyPaid ↔ (0 : Int) < 200 ∧ (200 : Int) < 500) ∧
      (b.paymentStatus = .Pending ↔ (200 : Int) = 0 ∧ (0 : Int) < 500)) ∧
    (exBillPaid.paidAmount = 500 ∧ exBillPaid.balance = exBillPaid.total - 500 ∧
      (exBillPaid.paymentStatus = .Paid ↔ exBillPaid.total ≤ 500) ∧
      (exBillPaid.paymentStatus = .PartiallyPaid ↔
        (0 : Int) < 500 ∧ 500 < exBillPaid.total) ∧
      (exBillPaid.paymentStatus = .Pending ↔
        (500 : Int) = 0 ∧ 0 < exBillPaid.total)) := by
  constructor
  · have h := c1_amended.1 exState exReq exState1 0 (by decide) (by decide) (by decide)
    exact h
  · exact c1_amended.2 exState1 0 500 exState2 exBillPaid (by decide) (by decide)
      (by decide)

/-! Claim C2. -/

/-- C2: a saveBill request that passes validation, whose customer exists, and
whose items include at least one itemId with no matching catalog item fails with
invalidReference carrying a nonempty list holding exactly the unmatched ids —
all of them, not just the first — and the store is left untouched. -/
theorem c2_invalid_items (s : ShopState) (r : SaveBillRequest)
    (hv : billRequestValid r = true)
    (hc : (findCustomer s r.customerId).isSome = true)
    (hm : ∃ it ∈ r.items, lookupCatalog s.catalog it.itemId = none) :
    ∃ missing, saveBill s r = .error (.invalidReference missing) ∧
      missing ≠ [] ∧
      (∀ id, id ∈ missing ↔
        id ∈ r.items.map (fun it => it.itemId) ∧
          lookupCatalog s.catalog id = none) ∧
      stepSaveBill s r = s := by
  obtain ⟨it0, hit0, hnone⟩ := hm
  obtain ⟨c, hc'⟩ := Option.isSome_iff_exists.mp hc
  have hmem : it0.itemId ∈ (r.items.map (fun it => it.itemId)).filter
      (fun id => (lookupCatalog s.catalog id).isNone) := by
    apply List.mem_filter.mpr
    refine ⟨List.mem_map.mpr ⟨it0, hit0, rfl⟩, ?_⟩
    rw [hnone]
    rfl
  have hne : (r.items.map (fun it => it.itemId)).filter
      (fun id => (lookupCatalog s.catalog id).isNone) ≠ [] :=
    List.ne_nil_of_mem hmem
  have hie : ((r.items.map (fun it => it.itemId)).filter
      (fun id => (lookupCatalog s.catalog id).isNone)).isEmpty = false :=
    List.isEmpty_eq_false.mpr hne
  have hsave : saveBill s r = .error (.invalidReference
      ((r.items.map (fun it => it.itemId)).filter
        (fun id => (lookupCatalog s.catalog id).isNone))) := by
    unfold saveBill
    rw [hv, hc']
    dsimp only
    rw [hie]
    rfl
  refine ⟨_, hsave, hne, ?_, ?_⟩
  · intro id
    simp [List.mem_filter, Option.isNone_iff_eq_none]
  · unfold stepSaveBill
    rw [hsave]

/-- C2 witness: on the base store, the request naming the absent ids
ITEM-ZZZZZZZ and ITEM-QQQQQQQ around the present ITEM-ABCDEFG fails with both
absent ids collected and the store unchanged. -/
theorem c2_witness :
    billRequestValid exReqMissing = true ∧
    (findCustomer exState exReqMissing.customerId).isSome = true ∧
    (∃ it ∈ exReqMissing.items, lookupCatalog exState.catalog it.itemId = none) ∧
    ∃ missing, saveBill exState exReqMissing = .error (.invalidReference missing) ∧
      missing ≠ [] ∧
      (∀ id, id ∈ missing ↔
        id ∈ exReqMissing.items.map (fun it => it.itemId) ∧
          lookupCatalog exState.catalog id = none) ∧
      stepSaveBill exState exReqMissing = exState :=
  ⟨by decide, by decide, by decide,
   c2_invalid_items exState exReqMissing (by decide) (by decide) (by decide)⟩

/-! Claim C4. -/

/-- C4: the bill read fails with the 400 invalid-format response when the given
customer id does not match the canonical format, and succeeds with success true
and an empty bill list when the id is well-formed but no such customer exists. -/
theorem c4_getBills_precondition :
    (∀ s cid, customerIdFormat cid = false →
      getBills s cid = .error (.validationErr "Invalid customer ID format")) ∧
    (∀ s cid, customerIdFormat cid = true → findCustomer s cid = none →
      getBills s cid = .ok { success := true
                             bills := []
                             total := 0
                             message := some "Customer not found" }) := by
  constructor
  · intro s cid hf
    unfold getBills
    rw [hf]
    rfl
  · intro s cid ht hn
    unfold getBills
    rw [ht]
    dsimp only
    rw [hn]
    rfl

/-- C4 witness: the malformed id CUST-BAD is rejected on any store, and the
well-formed worked id on the empty store yields the successful empty response. -/
theorem c4_witness :
    (customerIdFormat "CUST-BAD" = false ∧
      getBills exState "CUST-BAD" =
        .error (.validationErr "Invalid customer ID format")) ∧
    (customerIdFormat exCid = true ∧ findCustomer exEmptyState exCid = none ∧
      getBills exEmptyState exCid = .ok { success := true
                                          bills := []
                                          total := 0
                                          message := some "Customer not found" }) :=
  ⟨⟨by decide, c4_getBills_precondition.1 exState "CUST-BAD" (by decide)⟩,
   ⟨by decide, by decide,
    c4_getBills_precondition.2 exEmptyState exCid (by decide) (by decide)⟩⟩

/-! Claim C5. -/

/-- Applying the same keyed replacement twice over a list equals applying it
once. -/
theorem map_update_idem {α : Type} (p : α → Bool) (u : α) (l : List α) :
    (l.map (fun x => if p x then u else x)).map (fun x => if p x then u else x)
      = l.map (fun x => if p x then u else x) := by
  rw [List.map_map]
  apply List.map_congr_left
  intro x _
  by_cases hx : p x = true
  · simp [Function.comp, hx]
  · simp [Function.comp, hx]

/-- C5: recordPayment is an idempotent replace: a successful application stores
the given paidAmount as the new absolute paid total, and applying the same
request to the resulting store returns the same store and the same bill. -/
theorem c5_recordPayment_idempotent (s : ShopState) (bid : Nat) (p : Int)
    (s1 : ShopState) (b1 : Bill)
    (h : recordPayment s bid p = .ok (s1, b1)) :
    b1.paidAmount = p ∧ recordPayment s1 bid p = .ok (s1, b1) := by
  obtain ⟨bill, hfind, hb1, hbv, hs1⟩ := recordPayment_ok_shape h
  unfold findBill at hfind
  have hpb0 := List.find?_some hfind
  have hpb : (bill.billId == bid) = true := hpb0
  have hb1id : (b1.billId == bid) = true := by rw [hb1]; exact hpb
  have hfind1 : findBill s1 bid = some b1 := by
    rw [hs1]
    unfold findBill
    dsimp only
    exact find?_map_update (fun b => b.billId == bid) b1 s.bills bill hfind hb1id
  have hfix : ({ b1 with
                 paidAmount := p
                 balance := b1.total - p
                 paymentStatus := computeStatus b1.total p } : Bill) = b1 := by
    rw [hb1]
  refine ⟨by rw [hb1], ?_⟩
  unfold recordPayment
  rw [hfind1]
  dsimp only
  rw [hfix, hbv, hs1]
  dsimp only
  rw [map_update_idem]
  rfl

/-- C5 witness: repaying the worked bill in full with 500 stores 500, and the
identical second request returns the identical store and bill. -/
theorem c5_witness :
    exBillPaid.paidAmount = 500 ∧
    recordPayment exState2 0 500 = .ok (exState2, exBillPaid) :=
  c5_recordPayment_idempotent exState1 0 500 exState2 exBillPaid (by decide)

/-! Claim C7. -/

/-- C7 counterexample: paying -50 on the worked bill is not accepted — the save
runs the bill schema validator paidAmount min 0, the thrown validation error is
reported as the 500 Internal Server Error, and the stored bill still carries
paidAmount 200 — while the claim predicts the negative value accepted and
stored. -/
theorem c7_counterexample :
    recordPayment exState1 0 (-50) =
      .error (.internalErr "Internal Server Error") ∧
    stepRecordPayment exState1 0 (-50) = exState1 ∧
    findBill exState1 0 = some exBill ∧ exBill.paidAmount = 200 := by
  decide

/-- C7 (amended): the request layer applies only the Joi numeric-type check, so
a negative paidAmount reaches the save; there the bill schema validator
paidAmount min 0 rejects it — the request fails with the 500 Internal Server
Error and nothing is stored — while a nonnegative paidAmount on a stored bill
that passes its own schema validators is accepted and stored with balance and
paymentStatus recomputed from it. -/
theorem c7_amended :
    (∀ s bid bill p, findBill s bid = some bill → p < 0 →
      recordPayment s bid p = .error (.internalErr "Internal Server Error") ∧
      stepRecordPayment s bid p = s) ∧
    (∀ s bid bill p, findBill s bid = some bill → 0 ≤ p →
      billDocValid bill = true →
      ∃ s1, recordPayment s bid p =
          .ok (s1, { bill with
                     paidAmount := p
                     balance := bill.total - p
                     paymentStatus := computeStatus bill.total p }) ∧
        findBill s1 bid =
          some { bill with
                 paidAmount := p
                 balance := bill.total - p
                 paymentStatus := computeStatus bill.total p }) := by
  constructor
  · intro s bid bill p hf hneg
    have hinvalid : billDocValid
        { bill with
          paidAmount := p
          balance := bill.total - p
          paymentStatus := computeStatus bill.total p } = false := by
      unfold billDocValid
      have hp : decide (0 ≤ p) = false := by
        simp only [decide_eq_false_iff_not]
        omega
      dsimp only
      rw [hp]
      simp
    have hrun : recordPayment s bid p =
        .error (.internalErr "Internal Server Error") := by
      unfold recordPayment
      rw [hf]
      dsimp only
      rw [hinvalid]
      rfl
    refine ⟨hrun, ?_⟩
    unfold stepRecordPayment
    rw [hrun]
  · intro s bid bill p hf hp hbv
    have hfL : s.bills.find? (fun b => b.billId == bid) = some bill := hf
    have hvalid : billDocValid
        { bill with
          paidAmount := p
          balance := bill.total - p
          paymentStatus := computeStatus bill.total p } = true := by
      unfold billDocValid at hbv ⊢
      simp only [Bool.and_eq_true] at hbv ⊢
      obtain ⟨⟨ht, -⟩, hall⟩ := hbv
      refine ⟨⟨ht, ?_⟩, hall⟩
      simp only [decide_eq_true_eq]
      exact hp
    have hrun : recordPayment s bid p =
        .ok ({ s with
               bills := s.bills.map (fun b =>
                 if b.billId == bid then
                   { bill with
                     paidAmount := p
                     balance := bill.total - p
                     paymentStatus := computeStatus bill.total p }
                 else b) },
             { bill with
               paidAmount := p
               balance := bill.total - p
               paymentStatus := computeStatus bill.total p }) := by
      unfold recordPayment
      rw [hf]
      dsimp only
      rw [hvalid]
      rfl
    refine ⟨_, hrun, ?_⟩
    unfold findBill
    dsimp only
    have h0 := List.find?_some hfL
    exact find?_map_update (fun b => b.billId == bid)
      { bill with
        paidAmount := p
        balance := bill.total - p
        paymentStatus := computeStatus bill.total p }
      s.bills bill hfL h0

/-- C7 witness: on the worked bill, paying -50 yields the 500 error with the
store unchanged, and paying 500 succeeds and stores paidAmount 500. -/
theorem c7_amended_witness :
    (recordPayment exState1 0 (-50) =
        .error (.internalErr "Internal Server Error") ∧
      stepRecordPayment exState1 0 (-50) = exState1) ∧
    ∃ s1, recordPayment exState1 0 500 =
        .ok (s1, { exBill with
                   paidAmount := 500
                   balance := exBill.total - 500
                   paymentStatus := computeStatus exBill.total 500 }) ∧
      findBill s1 0 =
        some { exBill with
               paidAmount := 500
               balance := exBill.total - 500
               paymentStatus := computeStatus exBill.total 500 } :=
  ⟨c7_amended.1 exState1 0 exBill (-50) (by decide) (by decide),
   c7_amended.2 exState1 0 exBill 500 (by decide) (by decide) (by decide)⟩

/-! Claim C3. -/

/-- Enrichment as a join-and-drop: mapping items to optional snapshots and then
removing the null entries equals a filterMap of the catalog lookup, so a line
item survives exactly when its catalog item still exists. -/
theorem enrichItems_eq_filterMap (catalog : List CatalogItem)
    (items : List BillItem) :
    enrichItems catalog items =
      items.filterMap (fun it =>
        (lookupCatalog catalog it.itemId).map (fun found =>
          { itemId := { itemId := found.itemId
                        name := found.name
                        price := found.price }
            quantity := it.quantity })) := by
  unfold enrichItems
  rw [List.filterMap_map]
  congr 1
  funext it
  simp only [Function.comp]
  cases lookupCatalog catalog it.itemId <;> rfl

/-- C3: a successful bill read for an existing customer reports success, lists
the bills sorted by date descending, returns exactly the enrichment of the
stored bills of that customer, and enriches each returned bill by joining every
line item against the catalog, silently dropping the line items whose catalog
item no longer exists. -/
theorem c3_enriched_bills (s : ShopState) (cid : String)
    (resp : GetBillsResponse)
    (hc : (findCustomer s cid).isSome = true)
    (h : getBills s cid = .ok resp) :
    resp.success = true ∧
    List.Sorted (fun a b : EnrichedBill => b.date ≤ a.date) resp.bills ∧
    resp.bills.Perm
      ((s.bills.filter (fun b => b.customerId == cid)).map
        (enrichBill s.catalog)) ∧
    ∀ eb ∈ resp.bills, ∃ b, b ∈ s.bills ∧ b.customerId = cid ∧
      eb = enrichBill s.catalog b ∧
      eb.items = b.items.filterMap (fun it =>
        (lookupCatalog s.catalog it.itemId).map (fun found =>
          { itemId := { itemId := found.itemId
                        name := found.name
                        price := found.price }
            quantity := it.quantity })) := by
  obtain ⟨c, hc'⟩ := Option.isSome_iff_exists.mp hc
  unfold getBills at h
  split at h
  · simp at h
  · rw [hc'] at h
    dsimp only at h
    simp only [Except.ok.injEq] at h
    subst h
    refine ⟨rfl, ?_, ?_, ?_⟩
    · exact List.Pairwise.map (enrichBill s.catalog) (fun a b hab => hab)
        (List.sorted_insertionSort dateGe _)
    · exact (List.perm_insertionSort dateGe _).map (enrichBill s.catalog)
    · intro eb heb
      rcases List.mem_map.mp heb with ⟨b, hb, rfl⟩
      unfold sortByDateDesc at hb
      have hbf := (List.mem_insertionSort dateGe).mp hb
      obtain ⟨hbs, hbc⟩ := List.mem_filter.mp hbf
      exact ⟨b, hbs, eq_of_beq hbc, rfl, enrichItems_eq_filterMap _ _⟩

/-- C3 witness: on the two-bill store the read returns the newer bill first, and
the older bill comes back without its line item referencing ITEM-GONEGON, whose
catalog item no longer exists. -/
theorem c3_witness :
    getBills exStateBills exCid = .ok exRespBills ∧
    (exRespBills.success = true ∧
     List.Sorted (fun a b : EnrichedBill => b.date ≤ a.date) exRespBills.bills ∧
     exRespBills.bills.Perm
       ((exStateBills.bills.filter (fun b => b.customerId == exCid)).map
         (enrichBill exStateBills.catalog)) ∧
     ∀ eb ∈ exRespBills.bills, ∃ b, b ∈ exStateBills.bills ∧
       b.customerId = exCid ∧
       eb = enrichBill exStateBills.catalog b ∧
       eb.items = b.items.filterMap (fun it =>
         (lookupCatalog exStateBills.catalog it.itemId).map (fun found =>
           { itemId := { itemId := found.itemId
                         name := found.name
                         price := found.price }
             quantity := it.quantity }))) :=
  ⟨by decide,
   c3_enriched_bills exStateBills exCid exRespBills (by decide) (by decide)⟩

/-! Claim C6. -/

/-- C6: in the current revision every write path that stores or mutates a bill
recomputes balance as total minus paidAmount, together with the status, at the
mutation point: a bill present after a saveBill that was not present before, and
the bill updated by recordPayment, always satisfy the derivation; and the
derivation is genuinely computed rather than left to the stored schema default,
witnessed by a write whose stored balance differs from that default. -/
theorem c6_balance_recomputed :
    (∀ s r s1 bid, saveBill s r = .ok (s1, bid) →
      ∀ b ∈ s1.bills, b ∈ s.bills ∨
        (b.balance = b.total - b.paidAmount ∧
         b.paymentStatus = computeStatus b.total b.paidAmount)) ∧
    (∀ s bid p s1 b1, recordPayment s bid p = .ok (s1, b1) →
      (b1.balance = b1.total - b1.paidAmount ∧
       b1.paymentStatus = computeStatus b1.total b1.paidAmount) ∧
      ∀ b ∈ s1.bills, b ∈ s.bills ∨
        (b.balance = b.total - b.paidAmount ∧
         b.paymentStatus = computeStatus b.total b.paidAmount)) ∧
    (∃ s r s1 bid b, saveBill s r = .ok (s1, bid) ∧
      s1.bills = s.bills ++ [b] ∧ b.balance ≠ billSchemaBalanceDefault) := by
  refine ⟨?_, ?_, ?_⟩
  · intro s r s1 bid h b hb
    obtain ⟨-, -, hbills, -⟩ := saveBill_ok_shape h
    rw [hbills] at hb
    rcases List.mem_append.mp hb with h1 | h2
    · exact Or.inl h1
    · have hb2 := List.mem_singleton.mp h2
      subst hb2
      exact Or.inr ⟨rfl, rfl⟩
  · intro s bid p s1 b1 h
    obtain ⟨bill, hfind, hb1, -, hs1⟩ := recordPayment_ok_shape h
    subst hb1
    subst hs1
    refine ⟨⟨rfl, rfl⟩, ?_⟩
    intro b hb
    dsimp only at hb
    rcases List.mem_map.mp hb with ⟨a, ha, rfl⟩
    by_cases hba : (a.billId == bid) = true
    · rw [if_pos hba]
      exact Or.inr ⟨rfl, rfl⟩
    · rw [if_neg hba]
      exact Or.inl ha
  · exact ⟨exState, exReq, exState1, 0, exBill, by decide, by decide, by decide⟩

/-- C6 witness: the derivation holds for every bill after the worked creation
and after the worked payment update. -/
theorem c6_witness :
    (∀ b ∈ exState1.bills, b ∈ exState.bills ∨
      (b.balance = b.total - b.paidAmount ∧
       b.paymentStatus = computeStatus b.total b.paidAmount)) ∧
    ((exBillPaid.balance = exBillPaid.total - exBillPaid.paidAmount ∧
      exBillPaid.paymentStatus =
        computeStatus exBillPaid.total exBillPaid.paidAmount) ∧
     ∀ b ∈ exState2.bills, b ∈ exState1.bills ∨
      (b.balance = b.total - b.paidAmount ∧
       b.paymentStatus = computeStatus b.total b.paidAmount)) :=
  ⟨c6_balance_recomputed.1 exState exReq exState1 0 (by decide),
   c6_balance_recomputed.2.1 exState1 0 500 exState2 exBillPaid (by decide)⟩

/-! Claim C8. -/

/-- C8, the code evaluated at the failing input: two successive toggleFavorite
calls on the worked customer both succeed, both report favorite true, and
neither changes the stored record — the customer schema declares no favorite
path, so the toggled value is never persisted and every call reads undefined
again. The claim instead predicts that after two toggles the persisted favorite
is false and the second response reports false. -/
theorem c8_favorite_not_persisted :
    (runToggle exState exCid).1 = exState ∧
    (runToggle exState exCid).2 = some true ∧
    (runToggle (runToggle exState exCid).1 exCid).1 = exState ∧
    (runToggle (runToggle exState exCid).1 exCid).2 = some true := by
  decide

/-! Claim C9. -/

/-- C9 counterexample: updating the example item at clock 10 through updateItem
succeeds but leaves the stored updatedAt at its creation value 1, while the
claim demands it be reset to the current time. -/
theorem c9_counterexample :
    updateItem exState exItemReq = .ok (exStateUpdated, exItemUpdated) ∧
    exState.now = 10 ∧ exItemUpdated.updatedAt = 1 ∧
    exItemUpdated.updatedAt ≠ exState.now ∧
    lookupCatalog exStateUpdated.catalog "ITEM-ABCDEFG" = some exItemUpdated := by
  decide

/-- C9 (amended): a document save of a catalog item resets updatedAt to the
current time — creation through submitItems stamps both timestamps with the
clock — but an update through updateItem goes through findOneAndUpdate, which
bypasses the pre-save hook: it patches exactly name and price and leaves
updatedAt and createdAt at their stored values. -/
theorem c9_amended :
    (∀ s r s1 it, submitItem s r = .ok (s1, it) →
      it.updatedAt = s.now ∧ it.createdAt = s.now ∧
      s1.catalog = s.catalog ++ [it]) ∧
    (∀ s r s1 it old, updateItem s r = .ok (s1, it) →
      lookupCatalog s.catalog r.itemId = some old →
      it.name = r.name ∧ it.price = r.price ∧
      it.updatedAt = old.updatedAt ∧ it.createdAt = old.createdAt ∧
      lookupCatalog s1.catalog r.itemId = some it) := by
  constructor
  · intro s r s1 it h
    unfold submitItem at h
    split at h
    · simp at h
    · split at h
      · simp at h
      · simp only [Except.ok.injEq, Prod.mk.injEq] at h
        obtain ⟨hs, hit⟩ := h
        subst hs
        subst hit
        exact ⟨rfl, rfl, rfl⟩
  · intro s r s1 it old h hold
    unfold updateItem at h
    split at h
    · simp at h
    · split at h
      · simp at h
      · rename_i oldFound heq
        rw [hold] at heq
        injection heq with heq2
        subst heq2
        dsimp only at h
        simp only [Except.ok.injEq, Prod.mk.injEq] at h
        obtain ⟨hs, hit⟩ := h
        subst hit
        subst hs
        refine ⟨rfl, rfl, rfl, rfl, ?_⟩
        unfold lookupCatalog
        dsimp only
        have hfL : s.catalog.find? (fun x => x.itemId == r.itemId) = some old :=
          hold
        have h0 := List.find?_some hfL
        exact find?_map_update (fun x => x.itemId == r.itemId)
          { old with name := r.name, price := r.price } s.catalog old hfL h0

/-- C9 witness: creating ITEM-NEWITEM at clock 10 stamps both timestamps 10,
and updating ITEM-ABCDEFG patches name and price while updatedAt stays 1. -/
theorem c9_witness :
    (exNewItem.updatedAt = exState.now ∧ exNewItem.createdAt = exState.now ∧
      exStateNewItem.catalog = exState.catalog ++ [exNewItem]) ∧
    (exItemUpdated.name = exItemReq.name ∧
      exItemUpdated.price = exItemReq.price ∧
      exItemUpdated.updatedAt = exItem.updatedAt ∧
      exItemUpdated.createdAt = exItem.createdAt ∧
      lookupCatalog exStateUpdated.catalog exItemReq.itemId =
        some exItemUpdated) :=
  ⟨c9_amended.1 exState exNewItemReq exStateNewItem exNewItem (by decide),
   c9_amended.2 exState exItemReq exStateUpdated exItemUpdated exItem
     (by decide) (by decide)⟩

/-! Claim C10. -/

/-- A phone accepted by the customer schema phone pattern carries the +91
prefix. -/
theorem phoneMatchL_plus91 (l : List Char) (h : phoneMatchL l = true) :
    hasPlus91L l = true := by
  unfold phoneMatchL at h
  split at h
  · rfl
  · exact absurd h (by simp)

/-- C10 counterexample: saving a customer whose phone lacks the +91 prefix is
rejected by the schema validator — nothing is stored and no normalization is
applied — while the claim predicts a successful save storing the number with
+91 prepended; the prepend behaviour exists, but as the User schema pre-save
hook. -/
theorem c10_counterexample :
    customerSave exState exBadCustomer =
      .error (.validationErr "Customer validation failed") ∧
    hasPlus91 exBadCustomer.phonenumber = false ∧
    userNormalizePhone exBadCustomer.phonenumber = "+919876543210" := by
  decide

/-- C10 (amended): a customer save applies no normalization: the stored record
is the submitted one, and it is accepted only when the phone already matches
the +91 pattern, so every persisted customer phone number starts with +91; the
prepend-if-missing normalization belongs to the User schema pre-save hook,
whose output always starts with +91. -/
theorem c10_amended :
    (∀ s c s1, customerSave s c = .ok s1 →
      hasPlus91 c.phonenumber = true ∧ s1.customers = s.customers ++ [c]) ∧
    (∀ p, hasPlus91 (userNormalizePhone p) = true) := by
  constructor
  · intro s c s1 h
    unfold customerSave at h
    split at h
    · simp at h
    · rename_i hval
      simp at hval
      simp only [Except.ok.injEq] at h
      subst h
      refine ⟨?_, rfl⟩
      unfold customerDocValid at hval
      simp only [Bool.and_eq_true] at hval
      obtain ⟨⟨⟨⟨⟨-, -⟩, -⟩, hphone⟩, -⟩, -⟩ := hval
      exact phoneMatchL_plus91 _ hphone
  · intro p
    unfold userNormalizePhone
    by_cases hp : hasPlus91 p = true
    · rw [if_pos hp]
      exact hp
    · rw [if_neg hp]
      unfold hasPlus91
      have hl : ("+91" ++ p).toList = '+' :: '9' :: '1' :: p.toList := by
        show ("+91" ++ p).data = _
        rw [String.data_append]
        rfl
      rw [hl]
      rfl

/-- C10 witness: a customer with a +91 phone is stored unchanged, and the User
hook output for a bare ten-digit number starts with +91. -/
theorem c10_witness :
    (hasPlus91 exOkCustomer.phonenumber = true ∧
      exStateSaved.customers = exEmptyState.customers ++ [exOkCustomer]) ∧
    hasPlus91 (userNormalizePhone "9876543210") = true :=
  ⟨c10_amended.1 exEmptyState exOkCustomer exStateSaved (by decide),
   c10_amended.2 "9876543210"⟩

end ShopServer
